import Mathlib

/-!
Verification of the real-time streaming core of the `faceforge` repository
(`src/backend/realtime/stream_handler.py` and its WebSocket route), as a
shallow embedding in Lean 4.

Modelling conventions:
* Byte strings are `List Nat`.
* The external capabilities the handler calls (cv2 image decode/encode, the
  insightface detection/swapping models, and `json.loads`) are out of scope of
  the core per the spec; they are modelled as an abstract environment `Env`
  of total functions. Decoded images and detected faces are opaque `Nat`
  handles. A Python call that may raise inside a `try` that swallows the
  error is modelled by the corresponding `Option`-failure path.
* Wall-clock time (`time.time()`) is an exact rational passed to
  `process_frame` as the parameter `now`; floats are modelled by `ℚ`.
  Python float division raises `ZeroDivisionError` on a zero divisor, so
  the fps update carries an explicit error branch for `now` equal to the
  stored `last_frame_time`; likewise the ignored `cv2.imencode` success
  flag has an explicit branch for the `buffer.tobytes()` failure.
* The Python `dict` holding the sessions is an association list with
  first-match lookup; insertion overwrites in place, deletion filters.
* `StreamSession._target_embedding` is an attribute added dynamically with
  `setattr` and probed with `hasattr`; it is modelled by an `Option` field
  whose `none` value means "attribute absent".
* Each `async` method of `StreamManager` runs without interleaving between
  its suspension points for the purposes of one call, so it is modelled as a
  pure state transformer; the busy-flag handshake of `process_frame` is
  additionally split into `process_frame_begin` (the lines up to and
  including `session.is_processing = True`) and `process_frame_finish`
  (the `try/finally` body) so that the in-flight state between the two is a
  first-class state of the model.
-/

namespace FaceForge

/-- Byte strings (Python `bytes`) as lists of naturals. -/
abbrev Bytes := List Nat

/-- Opaque handle for a decoded image (`np.ndarray`). -/
abbrev Image := Nat

/-- Opaque handle for a detected face / embedding object. -/
abbrev Face := Nat

/-- JSON values, for the text-command protocol and the JSON replies. -/
inductive JVal where
  | jnull : JVal
  | jbool : Bool → JVal
  | jnum : ℚ → JVal
  | jstr : String → JVal
  | jarr : List JVal → JVal
  | jobj : List (String × JVal) → JVal

/-- External capabilities consumed by the stream handler, out of scope per
the spec (§1, §6): image decode/encode (cv2), face detection and swapping
(insightface), and JSON parsing (`json.loads`). `imdecode` returning `none`
models both `cv2.imdecode` returning `None` and an exception from
`np.frombuffer`/`cv2.imdecode`; `swapAvailable = false` models the
`ImportError` path of `_process_frame_internal`. `cv2.imencode` returns a
`(retval, buffer)` pair whose success flag the code ignores; `imencodeOk`
models that flag — when it is `false` the buffer is `None` and the
program's `buffer.tobytes()` raises `AttributeError`, after the stats
update (the encode call itself happens before `frames_processed += 1`, but
the `.tobytes()` only at the `return`). -/
structure Env where
  imdecode : Bytes → Option Image
  imencode : Image → Bytes
  imencodeOk : Image → Bool
  detect : Image → List Face
  swap : Image → Face → Face → Image
  swapAvailable : Bool
  jsonParse : String → Option JVal

/-- `StreamSession` dataclass of `stream_handler.py`, plus the dynamically
added `_target_embedding` attribute (`none` = attribute absent). The
websocket handle itself carries no state the claims touch and is omitted. -/
structure StreamSession where
  target_face : Option Image := none
  is_processing : Bool := false
  frames_processed : Nat := 0
  last_frame_time : ℚ := 0
  fps : ℚ := 0
  target_embedding : Option Face := none
deriving Repr, DecidableEq

/-- A fresh session, as built by `StreamSession(websocket=websocket)`. -/
def StreamSession.fresh : StreamSession := {}

/-- First-match lookup in the session table (Python `dict.get` /
`session_id in self.sessions`). -/
def dictGet (sid : String) : List (String × StreamSession) → Option StreamSession
  | [] => none
  | p :: rest => if p.1 = sid then some p.2 else dictGet sid rest

/-- In-place update of every entry bound to `sid` (mutation of the session
object obtained from the dict). -/
def updateSession (sid : String) (f : StreamSession → StreamSession)
    (l : List (String × StreamSession)) : List (String × StreamSession) :=
  l.map (fun p => if p.1 = sid then (p.1, f p.2) else p)

/-- `self.sessions[session_id] = session`: overwrite in place when the key is
present, append otherwise (Python dict assignment preserves key position). -/
def dictSet (sid : String) (v : StreamSession)
    (l : List (String × StreamSession)) : List (String × StreamSession) :=
  if (dictGet sid l).isSome then updateSession sid (fun _ => v) l
  else l ++ [(sid, v)]

/-- `del self.sessions[session_id]` on a unique-keyed dict: drop the entries
bound to `sid`. -/
def dictRemove (sid : String) (l : List (String × StreamSession)) :
    List (String × StreamSession) :=
  l.filter (fun p => ¬ p.1 = sid)

/-- `StreamManager`: the process-wide session registry. -/
structure StreamManager where
  sessions : List (String × StreamSession)
deriving Repr, DecidableEq

/-- `StreamManager()` with an empty table. -/
def StreamManager.empty : StreamManager := ⟨[]⟩

/-- `StreamManager.connect`: accept the connection, build a fresh session and
bind it to `session_id` (unconditional dict assignment). Returns the session
together with the new registry state. -/
def StreamManager.connect (st : StreamManager) (sid : String) :
    StreamSession × StreamManager :=
  (StreamSession.fresh, ⟨dictSet sid StreamSession.fresh st.sessions⟩)

/-- `StreamManager.disconnect`: remove the session if present, otherwise do
nothing. -/
def StreamManager.disconnect (st : StreamManager) (sid : String) : StreamManager :=
  if (dictGet sid st.sessions).isSome then ⟨dictRemove sid st.sessions⟩ else st

/-- `StreamManager.set_target_face`: unknown session → `False`; decode
failure (or exception) → `False` with no state change; otherwise store the
decoded image as `target_face` and return `True`. No face detection happens
here. -/
def StreamManager.set_target_face (env : Env) (st : StreamManager) (sid : String)
    (face_data : Bytes) : Bool × StreamManager :=
  match dictGet sid st.sessions with
  | none => (false, st)
  | some _ =>
    match env.imdecode face_data with
    | none => (false, st)
    | some img =>
      (true, ⟨updateSession sid (fun s => { s with target_face := some img }) st.sessions⟩)

/-- `StreamManager._process_frame_internal`: pass the frame through when no
target face is set or face swapping is unavailable (`ImportError`); otherwise
compute and cache the target embedding on first use (`hasattr` probe), then
detect a face in the frame and swap. Any failure returns the frame
unchanged. Returns the output image and the (possibly updated) session. -/
def processFrameInternal (env : Env) (s : StreamSession) (frame : Image) :
    Image × StreamSession :=
  match s.target_face with
  | none => (frame, s)
  | some tgt =>
    if env.swapAvailable then
      match s.target_embedding with
      | some emb =>
        match env.detect frame with
        | [] => (frame, s)
        | f :: _ => (env.swap frame f emb, s)
      | none =>
        match env.detect tgt with
        | [] => (frame, s)
        | e :: _ =>
          let s1 : StreamSession := { s with target_embedding := some e }
          match env.detect frame with
          | [] => (frame, s1)
          | f :: _ => (env.swap frame f e, s1)
    else (frame, s)

/-- The first half of `StreamManager.process_frame`: session lookup, the
busy-flag check and `session.is_processing = True`. Returns whether the call
proceeds into the `try` body, together with the state. -/
def process_frame_begin (st : StreamManager) (sid : String) :
    Bool × StreamManager :=
  match dictGet sid st.sessions with
  | none => (false, st)
  | some s =>
    if s.is_processing then (false, st)
    else (true, ⟨updateSession sid (fun s => { s with is_processing := true }) st.sessions⟩)

/-- The `try/finally` body of `StreamManager.process_frame`: decode the
frame (failure returns `None`), run `_process_frame_internal`, re-encode as
JPEG (quality 85), bump `frames_processed`, update `fps` from the delta of
the two most recent timestamps and set `last_frame_time`; the `finally`
clears `is_processing` on every path. Two statements in the body can raise
after `frames_processed += 1`, and the `except` then returns `None` with
the counter already incremented: `1.0 / (now - session.last_frame_time)`
raises `ZeroDivisionError` when `last_frame_time > 0` and `now` equals it
(at that point `fps` and `last_frame_time` are not yet updated), and
`buffer.tobytes()` raises when the ignored `cv2.imencode` success flag was
`False` (at that point all three stats are already updated). -/
def process_frame_finish (env : Env) (now : ℚ) (st : StreamManager) (sid : String)
    (frame_data : Bytes) : Option Bytes × StreamManager :=
  match dictGet sid st.sessions with
  | none => (none, st)
  | some s =>
    match env.imdecode frame_data with
    | none =>
      (none, ⟨updateSession sid (fun s => { s with is_processing := false }) st.sessions⟩)
    | some frame =>
      let pr := processFrameInternal env s frame
      if 0 < pr.2.last_frame_time ∧ now = pr.2.last_frame_time then
        (none, ⟨updateSession sid (fun _ =>
          { pr.2 with
            frames_processed := pr.2.frames_processed + 1
            is_processing := false }) st.sessions⟩)
      else
        let s2 : StreamSession :=
          { pr.2 with
            frames_processed := pr.2.frames_processed + 1
            fps := if 0 < pr.2.last_frame_time then 1 / (now - pr.2.last_frame_time)
                   else pr.2.fps
            last_frame_time := now
            is_processing := false }
        if env.imencodeOk pr.1 then
          (some (env.imencode pr.1), ⟨updateSession sid (fun _ => s2) st.sessions⟩)
        else
          (none, ⟨updateSession sid (fun _ => s2) st.sessions⟩)

/-- `StreamManager.process_frame`: the begin/finish handshake run without an
interleaved call. -/
def StreamManager.process_frame (env : Env) (now : ℚ) (st : StreamManager)
    (sid : String) (frame_data : Bytes) : Option Bytes × StreamManager :=
  let b := process_frame_begin st sid
  if b.1 then process_frame_finish env now b.2 sid frame_data else (none, b.2)

/-- Python `round(x, 1)` on the fps value, modelled on exact rationals:
round to the nearest tenth, ties to the even tenth (Python rounds
half-to-even; floats are modelled by `ℚ` throughout). -/
def round1 (q : ℚ) : ℚ :=
  if 10 * q - ⌊10 * q⌋ = 1 / 2 then
    (if ⌊10 * q⌋ % 2 = 0 then (⌊10 * q⌋ : ℚ) else (⌊10 * q⌋ : ℚ) + 1) / 10
  else ((round (10 * q) : ℤ) : ℚ) / 10

/-- `StreamManager.get_stats`: `{}` for an unknown session, otherwise the
three-field snapshot, as the key/value list of the returned dict. -/
def StreamManager.get_stats (st : StreamManager) (sid : String) :
    List (String × JVal) :=
  match dictGet sid st.sessions with
  | none => []
  | some s =>
    [("frames_processed", JVal.jnum s.frames_processed),
     ("fps", JVal.jnum (round1 s.fps)),
     ("has_target_face", JVal.jbool s.target_face.isSome)]

/-- A message received from the websocket (`websocket.receive()`), already
classified by which of `"bytes"`/`"text"` is present; the disconnect message
only ends the loop and is handled outside. -/
inductive Msg where
  | binary : Bytes → Msg
  | text : String → Msg

/-- A reply written back on the websocket. -/
inductive Reply where
  | json : JVal → Reply
  | bytes : Bytes → Reply

/-- The literal 4-byte marker `b"FACE"`. -/
def faceMarker : Bytes := [70, 65, 67, 69]

/-- Python `data.get("command")` on the parsed JSON object. -/
def jobjGet (key : String) : List (String × JVal) → Option JVal
  | [] => none
  | p :: rest => if p.1 = key then some p.2 else jobjGet key rest

/-- One iteration of the `websocket_stream_handler` loop on a received
message: the list of replies written (in order) and the new manager state.
`.error ()` models an uncaught Python exception propagating out of the loop
(only `json.JSONDecodeError` and `WebSocketDisconnect` are caught), which
tears the session down via the `finally` block and closes the connection.
`data.get` on a parsed JSON value that is not an object raises
`AttributeError`, hence the `.error` arm. -/
def handleMessage (env : Env) (now : ℚ) (st : StreamManager) (sid : String) :
    Msg → Except Unit (List Reply × StreamManager)
  | .binary b =>
    if b.take 4 = faceMarker then
      let r := StreamManager.set_target_face env st sid (b.drop 4)
      .ok ([Reply.json (JVal.jobj
        [("type", JVal.jstr "face_set"), ("success", JVal.jbool r.1)])], r.2)
    else
      let r := StreamManager.process_frame env now st sid b
      match r.1 with
      | none => .ok ([], r.2)
      | some out => if out = [] then .ok ([], r.2) else .ok ([Reply.bytes out], r.2)
  | .text s =>
    match env.jsonParse s with
    | none => .ok ([], st)
    | some (JVal.jobj kvs) =>
      match jobjGet "command" kvs with
      | some (JVal.jstr c) =>
        if c = "stats" then
          .ok ([Reply.json (JVal.jobj
            (("type", JVal.jstr "stats") :: StreamManager.get_stats st sid))], st)
        else if c = "ping" then
          .ok ([Reply.json (JVal.jobj [("type", JVal.jstr "pong")])], st)
        else .ok ([], st)
      | _ => .ok ([], st)
    | some _ => .error ()

/-- `list_stream_sessions` (route `GET /stream/sessions`): the per-session
`(session_id, stats)` listing built from the registry. -/
def listSessions (st : StreamManager) : List (String × List (String × JVal)) :=
  st.sessions.map (fun p => (p.1, st.get_stats p.1))

/-! ### Basic lemmas about the session table -/

theorem dictGet_updateSession (sid : String) (f : StreamSession → StreamSession)
    (l : List (String × StreamSession)) :
    dictGet sid (updateSession sid f l) = (dictGet sid l).map f := by
  induction l with
  | nil => rfl
  | cons p rest ih =>
    by_cases hp : p.1 = sid <;> simp [dictGet, updateSession, hp] <;>
      simpa [updateSession] using ih

theorem dictGet_dictSet (sid : String) (v : StreamSession)
    (l : List (String × StreamSession)) :
    dictGet sid (dictSet sid v l) = some v := by
  unfold dictSet
  by_cases h : (dictGet sid l).isSome
  · rw [if_pos h, dictGet_updateSession]
    obtain ⟨s, hs⟩ := Option.isSome_iff_exists.mp h
    simp [hs]
  · rw [if_neg h]
    rw [Option.not_isSome_iff_eq_none] at h
    induction l with
    | nil => simp [dictGet]
    | cons p rest ih =>
      by_cases hp : p.1 = sid
      · simp [dictGet, hp] at h
      · simp [dictGet, hp] at h ⊢
        exact ih h

theorem dictGet_none_not_mem (sid : String) (l : List (String × StreamSession))
    (h : dictGet sid l = none) : sid ∉ l.map Prod.fst := by
  induction l with
  | nil => simp
  | cons p rest ih =>
    by_cases hp : p.1 = sid
    · simp [dictGet, hp] at h
    · simp [dictGet, hp] at h
      simp [hp, ih h]
      exact fun hc => hp hc.symm

theorem dictGet_dictRemove (sid : String) (l : List (String × StreamSession)) :
    dictGet sid (dictRemove sid l) = none := by
  induction l with
  | nil => rfl
  | cons p rest ih =>
    by_cases hp : p.1 = sid <;> simp [dictRemove, hp, dictGet] at ih ⊢ <;>
      simpa [dictRemove] using ih

/-! ### Path lemmas for `_process_frame_internal` and `process_frame` -/

/-- `_process_frame_internal` leaves every session field untouched except
possibly `target_embedding` (the first-use descriptor cache). -/
theorem processFrameInternal_fields (env : Env) (s : StreamSession) (frame : Image) :
    (processFrameInternal env s frame).2.frames_processed = s.frames_processed ∧
    (processFrameInternal env s frame).2.last_frame_time = s.last_frame_time ∧
    (processFrameInternal env s frame).2.fps = s.fps ∧
    (processFrameInternal env s frame).2.is_processing = s.is_processing ∧
    (processFrameInternal env s frame).2.target_face = s.target_face := by
  obtain ⟨tf, ip, fp, lft, fq, te⟩ := s
  simp only [processFrameInternal]
  cases tf <;> cases env.swapAvailable <;> cases te <;> simp <;>
    (try cases env.detect frame) <;> simp <;>
    (try split) <;> simp <;> (try split) <;> simp

/-- Setting the busy flag commutes with `_process_frame_internal` (which
only reads `target_face`/`target_embedding`). -/
theorem processFrameInternal_busy (env : Env) (s : StreamSession) (frame : Image) :
    processFrameInternal env { s with is_processing := true } frame =
      ((processFrameInternal env s frame).1,
       { (processFrameInternal env s frame).2 with is_processing := true }) := by
  obtain ⟨tf, ip, fp, lft, fq, te⟩ := s
  simp only [processFrameInternal]
  cases tf <;> cases env.swapAvailable <;> cases te <;> simp <;>
    (try cases env.detect frame) <;> simp <;>
    (try split) <;> simp <;> (try split) <;> simp

/-- The session state written back by a completed `process_frame` call. -/
def successSession (env : Env) (now : ℚ) (s : StreamSession) (frame : Image) :
    StreamSession :=
  { (processFrameInternal env s frame).2 with
    frames_processed := (processFrameInternal env s frame).2.frames_processed + 1
    fps := if 0 < (processFrameInternal env s frame).2.last_frame_time
           then 1 / (now - (processFrameInternal env s frame).2.last_frame_time)
           else (processFrameInternal env s frame).2.fps
    last_frame_time := now
    is_processing := false }

/-- The session state left behind when the fps update raises
`ZeroDivisionError`: the counter is already incremented, `fps` and
`last_frame_time` are not yet updated, and the `finally` clears the flag. -/
def countedSession (env : Env) (s : StreamSession) (frame : Image) :
    StreamSession :=
  { (processFrameInternal env s frame).2 with
    frames_processed := (processFrameInternal env s frame).2.frames_processed + 1
    is_processing := false }

theorem process_frame_unknown (env : Env) (now : ℚ) (st : StreamManager)
    (sid : String) (b : Bytes) (h : dictGet sid st.sessions = none) :
    StreamManager.process_frame env now st sid b = (none, st) := by
  simp [StreamManager.process_frame, process_frame_begin, h]

theorem process_frame_busy (env : Env) (now : ℚ) (st : StreamManager)
    (sid : String) (b : Bytes) (s : StreamSession)
    (h : dictGet sid st.sessions = some s) (hb : s.is_processing = true) :
    StreamManager.process_frame env now st sid b = (none, st) := by
  simp [StreamManager.process_frame, process_frame_begin, h, hb]

/-- Path characterization of a `process_frame` call that passes the busy
check: decode failure returns `none` and restores the session; after a
successful decode the call writes back either `successSession` (normal
completion or the `buffer.tobytes()` failure, which returns `none` with the
stats already updated) or `countedSession` (the fps `ZeroDivisionError`,
which returns `none` with only the counter updated), and a non-`none`
result is always the re-encoding of the `_process_frame_internal` output
with the `successSession` state written back. -/
theorem process_frame_cases (env : Env) (now : ℚ) (st : StreamManager)
    (sid : String) (b : Bytes) (s : StreamSession)
    (h : dictGet sid st.sessions = some s) (hb : s.is_processing = false) :
    (env.imdecode b = none →
      ∃ l, StreamManager.process_frame env now st sid b = (none, ⟨l⟩) ∧
        dictGet sid l = some s) ∧
    (∀ frame, env.imdecode b = some frame →
      ∃ l, (StreamManager.process_frame env now st sid b).2 = ⟨l⟩ ∧
        ((StreamManager.process_frame env now st sid b).1 = none ∨
          (StreamManager.process_frame env now st sid b).1 =
            some (env.imencode (processFrameInternal env s frame).1)) ∧
        (dictGet sid l = some (successSession env now s frame) ∨
          dictGet sid l = some (countedSession env s frame)) ∧
        ((StreamManager.process_frame env now st sid b).1.isSome →
          (StreamManager.process_frame env now st sid b).1 =
            some (env.imencode (processFrameInternal env s frame).1) ∧
          dictGet sid l = some (successSession env now s frame))) := by
  have hbeg : process_frame_begin st sid =
      (true, ⟨updateSession sid (fun t => { t with is_processing := true }) st.sessions⟩) := by
    simp [process_frame_begin, h, hb]
  have hget : dictGet sid (updateSession sid
      (fun t => { t with is_processing := true }) st.sessions) =
      some { s with is_processing := true } := by
    rw [dictGet_updateSession, h, Option.map_some']
  constructor
  · intro hdec
    have he : StreamManager.process_frame env now st sid b =
        (none, ⟨updateSession sid (fun t => { t with is_processing := false })
          (updateSession sid (fun t => { t with is_processing := true }) st.sessions)⟩) := by
      simp [StreamManager.process_frame, hbeg, process_frame_finish, hget, hdec]
    refine ⟨_, he, ?_⟩
    rw [dictGet_updateSession, dictGet_updateSession, h]
    obtain ⟨tf, ip, fp, lft, fq, te⟩ := s
    simp at hb
    simp [hb]
  · intro frame hdec
    have hgets : dictGet sid (updateSession sid
        (fun _ => successSession env now s frame)
        (updateSession sid (fun t => { t with is_processing := true }) st.sessions)) =
        some (successSession env now s frame) := by
      rw [dictGet_updateSession, dictGet_updateSession, h, Option.map_some',
        Option.map_some']
    have hgetc : dictGet sid (updateSession sid
        (fun _ => countedSession env s frame)
        (updateSession sid (fun t => { t with is_processing := true }) st.sessions)) =
        some (countedSession env s frame) := by
      rw [dictGet_updateSession, dictGet_updateSession, h, Option.map_some',
        Option.map_some']
    by_cases hz : 0 < (processFrameInternal env s frame).2.last_frame_time ∧
        now = (processFrameInternal env s frame).2.last_frame_time
    · have he : StreamManager.process_frame env now st sid b =
          (none, ⟨updateSession sid (fun _ => countedSession env s frame)
            (updateSession sid (fun t => { t with is_processing := true }) st.sessions)⟩) := by
        simp [StreamManager.process_frame, hbeg, process_frame_finish, hget, hdec,
          processFrameInternal_busy, hz, countedSession]
      rw [he]
      exact ⟨_, rfl, Or.inl rfl, Or.inr hgetc, fun hcon => by simp at hcon⟩
    · by_cases henc : env.imencodeOk (processFrameInternal env s frame).1 = true
      · have he : StreamManager.process_frame env now st sid b =
            (some (env.imencode (processFrameInternal env s frame).1),
             ⟨updateSession sid (fun _ => successSession env now s frame)
               (updateSession sid (fun t => { t with is_processing := true }) st.sessions)⟩) := by
          simp [StreamManager.process_frame, hbeg, process_frame_finish, hget, hdec,
            processFrameInternal_busy, hz, henc, successSession]
        rw [he]
        exact ⟨_, rfl, Or.inr rfl, Or.inl hgets, fun _ => ⟨rfl, hgets⟩⟩
      · have he : StreamManager.process_frame env now st sid b =
            (none, ⟨updateSession sid (fun _ => successSession env now s frame)
              (updateSession sid (fun t => { t with is_processing := true }) st.sessions)⟩) := by
          simp [StreamManager.process_frame, hbeg, process_frame_finish, hget, hdec,
            processFrameInternal_busy, hz, henc, successSession]
        rw [he]
        exact ⟨_, rfl, Or.inl rfl, Or.inl hgets, fun hcon => by simp at hcon⟩

/-- Path characterization of the `try/finally` body alone, from an arbitrary
stored session (in particular one whose busy flag is already set): decode
failure only clears the flag; after a successful decode, the fps
`ZeroDivisionError` path leaves `countedSession`, while both the normal
path and the `buffer.tobytes()` failure path leave `successSession`, the
result being the re-encoded frame exactly when the ignored encode flag was
true. -/
theorem process_frame_finish_cases (env : Env) (now : ℚ) (st : StreamManager)
    (sid : String) (b : Bytes) (s : StreamSession)
    (h : dictGet sid st.sessions = some s) :
    (env.imdecode b = none →
      process_frame_finish env now st sid b =
        (none, ⟨updateSession sid (fun t => { t with is_processing := false }) st.sessions⟩)) ∧
    (∀ frame, env.imdecode b = some frame →
      ((0 < (processFrameInternal env s frame).2.last_frame_time ∧
          now = (processFrameInternal env s frame).2.last_frame_time) →
        process_frame_finish env now st sid b =
          (none, ⟨updateSession sid (fun _ => countedSession env s frame) st.sessions⟩)) ∧
      (¬ (0 < (processFrameInternal env s frame).2.last_frame_time ∧
          now = (processFrameInternal env s frame).2.last_frame_time) →
        process_frame_finish env now st sid b =
          ((if env.imencodeOk (processFrameInternal env s frame).1 = true
            then some (env.imencode (processFrameInternal env s frame).1) else none),
           ⟨updateSession sid (fun _ => successSession env now s frame) st.sessions⟩))) := by
  constructor
  · intro hdec
    simp [process_frame_finish, h, hdec]
  · intro frame hdec
    constructor
    · intro hz
      simp [process_frame_finish, h, hdec, hz, countedSession]
    · intro hz
      by_cases henc : env.imencodeOk (processFrameInternal env s frame).1 = true
      · simp [process_frame_finish, h, hdec, hz, henc, successSession]
      · simp [process_frame_finish, h, hdec, hz, henc, successSession]

/-! ### Concrete environments and states for witnesses and counterexamples -/

/-- A concrete instantiation of the external capabilities: decoding reads the
first byte as the image handle (empty input fails to decode), re-encoding
handle `i` yields `[i + 1]` (so, as with a real JPEG encoder, re-encoding
does not reproduce the input bytes), even handles contain one detectable
face `i + 100` and odd handles contain none, and swapping is injective in
the descriptor argument. -/
def env0 : Env where
  imdecode := fun b => match b with | [] => none | x :: _ => some x
  imencode := fun i => [i + 1]
  imencodeOk := fun _ => true
  detect := fun i => if i % 2 = 0 then [i + 100] else []
  swap := fun f fa emb => f * 1000000 + fa * 1000 + emb
  swapAvailable := true
  jsonParse := fun s =>
    if s = "ping" then some (JVal.jobj [("command", JVal.jstr "ping")])
    else if s = "stats" then some (JVal.jobj [("command", JVal.jstr "stats")])
    else if s = "other" then some (JVal.jobj [("command", JVal.jstr "zzz")])
    else if s = "empty" then some (JVal.jobj [])
    else if s = "arr" then some (JVal.jarr [])
    else none

/-- Like `env0` but the encoder produces empty byte strings. -/
def envEmpty : Env := { env0 with imencode := fun _ => [] }

/-- Registry with the single freshly connected session `"s"`. -/
def st1 : StreamManager := (StreamManager.connect StreamManager.empty "s").2

/-! ### Claims -/

/-- Claim C9 (confirmed): removing a session identifier from the registry is
idempotent — removing twice equals removing once, removing an absent
identifier is a no-op that does not raise, and the listing taken after the
first removal no longer contains the identifier. -/
theorem C9_remove_idempotent (st : StreamManager) (sid : String) :
    StreamManager.disconnect (StreamManager.disconnect st sid) sid =
      StreamManager.disconnect st sid ∧
    (dictGet sid st.sessions = none → StreamManager.disconnect st sid = st) ∧
    sid ∉ (listSessions (StreamManager.disconnect st sid)).map Prod.fst := by
  have hno : dictGet sid st.sessions = none → StreamManager.disconnect st sid = st := by
    intro h
    simp [StreamManager.disconnect, h]
  refine ⟨?_, hno, ?_⟩
  · by_cases h : (dictGet sid st.sessions).isSome
    · have h1 : StreamManager.disconnect st sid = ⟨dictRemove sid st.sessions⟩ := by
        simp [StreamManager.disconnect, h]
      rw [h1]
      simp [StreamManager.disconnect, dictGet_dictRemove]
    · rw [Option.not_isSome_iff_eq_none] at h
      rw [hno h]
      exact hno h
  · by_cases h : (dictGet sid st.sessions).isSome
    · have h1 : StreamManager.disconnect st sid = ⟨dictRemove sid st.sessions⟩ := by
        simp [StreamManager.disconnect, h]
      rw [h1]
      simpa [listSessions, List.map_map] using
        dictGet_none_not_mem sid _ (dictGet_dictRemove sid st.sessions)
    · rw [Option.not_isSome_iff_eq_none] at h
      rw [hno h]
      simpa [listSessions, List.map_map] using dictGet_none_not_mem sid st.sessions h

/-- Witness for C9 at a concrete registry (identifier `"s"` absent). -/
theorem C9_remove_idempotent_witness :
    StreamManager.disconnect
        (StreamManager.disconnect ⟨[("a", StreamSession.fresh)]⟩ "s") "s" =
      StreamManager.disconnect ⟨[("a", StreamSession.fresh)]⟩ "s" ∧
    StreamManager.disconnect ⟨[("a", StreamSession.fresh)]⟩ "s" =
      ⟨[("a", StreamSession.fresh)]⟩ ∧
    "s" ∉ (listSessions
      (StreamManager.disconnect ⟨[("a", StreamSession.fresh)]⟩ "s")).map Prod.fst := by
  obtain ⟨h1, h2, h3⟩ := C9_remove_idempotent ⟨[("a", StreamSession.fresh)]⟩ "s"
  exact ⟨h1, h2 rfl, h3⟩

/-- Counterexample to claim C6: `connect` with an identifier already present
in the registry succeeds by silently replacing the existing session (here a
session with five processed frames is replaced by a fresh one). -/
theorem C6_connect_replaces_cex :
    (StreamManager.connect
        ⟨[("s", { StreamSession.fresh with frames_processed := 5 })]⟩ "s").2.sessions =
      [("s", StreamSession.fresh)] ∧
    dictGet "s" (StreamManager.connect
        ⟨[("s", { StreamSession.fresh with frames_processed := 5 })]⟩ "s").2.sessions ≠
      some { StreamSession.fresh with frames_processed := 5 } := by
  exact ⟨rfl, by decide⟩

/-- Claim C6 as amended: `connect` never fails; it unconditionally binds the
identifier to a fresh session, replacing any session previously bound to it. -/
theorem C6_connect_always_replaces (st : StreamManager) (sid : String) :
    (StreamManager.connect st sid).1 = StreamSession.fresh ∧
    dictGet sid (StreamManager.connect st sid).2.sessions = some StreamSession.fresh :=
  ⟨rfl, dictGet_dictSet sid _ _⟩

/-- Claim C10 (confirmed): session-level operations on an identifier not in
the registry are total no-ops — `set_target_face` returns `false` with the
state unmodified, `process_frame` returns `None` with the state unmodified,
`get_stats` returns the empty dict, and the stats reply built from it
carries only the `"type"` field. -/
theorem C10_unknown_session_noop (env : Env) (now : ℚ) (st : StreamManager)
    (sid : String) (fd b : Bytes) (t : String)
    (h : dictGet sid st.sessions = none)
    (ht : env.jsonParse t = some (JVal.jobj [("command", JVal.jstr "stats")])) :
    StreamManager.set_target_face env st sid fd = (false, st) ∧
    StreamManager.process_frame env now st sid b = (none, st) ∧
    StreamManager.get_stats st sid = [] ∧
    handleMessage env now st sid (Msg.text t) =
      .ok ([Reply.json (JVal.jobj [("type", JVal.jstr "stats")])], st) := by
  refine ⟨?_, process_frame_unknown env now st sid b h, ?_, ?_⟩
  · simp [StreamManager.set_target_face, h]
  · simp [StreamManager.get_stats, h]
  · simp [handleMessage, ht, jobjGet, StreamManager.get_stats, h]

/-- Witness for C10 at the empty registry. -/
theorem C10_unknown_session_noop_witness :
    StreamManager.set_target_face env0 StreamManager.empty "s" [2] =
      (false, StreamManager.empty) ∧
    StreamManager.process_frame env0 0 StreamManager.empty "s" [2] =
      (none, StreamManager.empty) ∧
    StreamManager.get_stats StreamManager.empty "s" = [] ∧
    handleMessage env0 0 StreamManager.empty "s" (Msg.text "stats") =
      .ok ([Reply.json (JVal.jobj [("type", JVal.jstr "stats")])], StreamManager.empty) :=
  C10_unknown_session_noop env0 0 StreamManager.empty "s" [2] [2] "stats" rfl rfl

/-- Counterexample to claim C3: `set_target_face` performs no face detection,
so bytes that decode to an image in which the detection capability finds no
face (`env0.detect 3 = []`) are accepted with `true`, not rejected with
`false`. -/
theorem C3_no_face_accepted_cex :
    env0.imdecode [3] = some 3 ∧ env0.detect 3 = [] ∧
    (StreamManager.set_target_face env0 st1 "s" [3]).1 = true :=
  ⟨rfl, rfl, rfl⟩

/-- Claim C3 as amended: for a registered session, `set_target_face` returns
`false` (without raising) exactly when the bytes fail image decoding, and on
decode failure the whole registry state — in particular the previously
stored face and derived descriptor — is unchanged; face detection is not
consulted, so bytes decoding to any image succeed and replace only the
stored `target_face` (the cached descriptor is untouched). -/
theorem C3_decode_failure_only (env : Env) (st : StreamManager) (sid : String)
    (fd : Bytes) (s : StreamSession) (h : dictGet sid st.sessions = some s) :
    ((StreamManager.set_target_face env st sid fd).1 = true ↔ (env.imdecode fd).isSome) ∧
    (env.imdecode fd = none → StreamManager.set_target_face env st sid fd = (false, st)) ∧
    (∀ img, env.imdecode fd = some img →
      dictGet sid (StreamManager.set_target_face env st sid fd).2.sessions =
        some { s with target_face := some img }) := by
  refine ⟨?_, ?_, ?_⟩
  · cases hdec : env.imdecode fd <;> simp [StreamManager.set_target_face, h, hdec]
  · intro hdec
    simp [StreamManager.set_target_face, h, hdec]
  · intro img hdec
    simp [StreamManager.set_target_face, h, hdec, dictGet_updateSession]

/-- Witness for C3 as amended, at a decode failure (`[]`) on session `"s"`. -/
theorem C3_decode_failure_only_witness :
    ((StreamManager.set_target_face env0 st1 "s" []).1 = true ↔
      (env0.imdecode []).isSome) ∧
    StreamManager.set_target_face env0 st1 "s" [] = (false, st1) ∧
    dictGet "s" (StreamManager.set_target_face env0 st1 "s" [2]).2.sessions =
      some { StreamSession.fresh with target_face := some 2 } := by
  obtain ⟨h1, h2, _⟩ := C3_decode_failure_only env0 st1 "s" [] StreamSession.fresh rfl
  exact ⟨h1, h2 rfl,
    (C3_decode_failure_only env0 st1 "s" [2] StreamSession.fresh rfl).2.2 2 rfl⟩

/-- Counterexample to claim C2: on a session with no reference face ever
set, the non-`None` result of `process_frame` is the JPEG re-encoding of the
decoded frame, which is not byte-identical to the input bytes (`[5]` in,
`[6]` out under `env0`). -/
theorem C2_reencoded_not_identical_cex :
    (StreamManager.process_frame env0 0 st1 "s" [5]).1 = some [6] ∧
    some ([6] : Bytes) ≠ some ([5] : Bytes) :=
  ⟨rfl, by decide⟩

/-- Claim C2 as amended: on a session with no reference face set, every
non-`None` result of `process_frame` equals the re-encoding
(`cv2.imencode`, JPEG quality 85) of the decoded input frame — the decoded
frame content passes through unmodified, but the bytes are in general not
identical to the input — and the session still has no reference face
afterwards, so this holds along any sequence of frames. -/
theorem C2_no_reference_passthrough (env : Env) (now : ℚ) (st : StreamManager)
    (sid : String) (b : Bytes) (s : StreamSession)
    (h : dictGet sid st.sessions = some s) (ht : s.target_face = none) :
    (∀ out, (StreamManager.process_frame env now st sid b).1 = some out →
      ∃ frame, env.imdecode b = some frame ∧ out = env.imencode frame) ∧
    ∃ s', dictGet sid (StreamManager.process_frame env now st sid b).2.sessions = some s' ∧
      s'.target_face = none := by
  have hint : ∀ frame, processFrameInternal env s frame = (frame, s) := by
    intro frame
    simp [processFrameInternal, ht]
  by_cases hb : s.is_processing
  · rw [process_frame_busy env now st sid b s h hb]
    exact ⟨fun out hout => by simp at hout, ⟨s, h, ht⟩⟩
  · rw [Bool.not_eq_true] at hb
    obtain ⟨hnone, hsome⟩ := process_frame_cases env now st sid b s h hb
    cases hdec : env.imdecode b with
    | none =>
      obtain ⟨l, he, hget⟩ := hnone hdec
      rw [he]
      exact ⟨fun out hout => by simp at hout, ⟨s, hget, ht⟩⟩
    | some frame =>
      obtain ⟨l, he2, hres, hget2, _⟩ := hsome frame hdec
      refine ⟨?_, ?_⟩
      · intro out hout
        rcases hres with hres | hres
        · rw [hres] at hout
          cases hout
        · rw [hres] at hout
          refine ⟨frame, rfl, ?_⟩
          rw [hint frame] at hout
          simpa using hout.symm
      · rw [he2]
        rcases hget2 with hg | hg
        · exact ⟨_, hg, by simp [successSession, hint frame, ht]⟩
        · exact ⟨_, hg, by simp [countedSession, hint frame, ht]⟩

/-- Witness for C2 as amended: the frame `[5]` on the fresh session `"s"`. -/
theorem C2_no_reference_passthrough_witness :
    (∃ frame, env0.imdecode [5] = some frame ∧ ([6] : Bytes) = env0.imencode frame) ∧
    ∃ s', dictGet "s" (StreamManager.process_frame env0 0 st1 "s" [5]).2.sessions = some s' ∧
      s'.target_face = none := by
  obtain ⟨h1, h2⟩ :=
    C2_no_reference_passthrough env0 0 st1 "s" [5] StreamSession.fresh rfl rfl
  exact ⟨h1 [6] rfl, h2⟩

/-- Counterexample to claim C5: a text message that parses as JSON but not
as a JSON object (here the array `[]`) has no `command` field, yet instead
of being ignored it raises (`data.get` on a list is an `AttributeError`
that only `json.JSONDecodeError` would have been caught for), which tears
the session down and closes the connection. -/
theorem C5_nonobject_json_cex :
    env0.jsonParse "arr" = some (JVal.jarr []) ∧
    handleMessage env0 0 st1 "s" (Msg.text "arr") = .error () :=
  ⟨rfl, rfl⟩

/-- Claim C5 as amended: a text message whose payload is not parseable JSON
is silently ignored with no reply and the connection stays open, so a
subsequent valid ping still yields pong; a payload parsing to a JSON object
whose `command` field is a string other than `"stats"`/`"ping"`, a
non-string, or missing gets no reply and the connection stays open; but a
payload parsing to a non-object JSON value raises and the connection is
torn down. -/
theorem C5_text_protocol (env : Env) (now : ℚ) (st : StreamManager) (sid : String) :
    (∀ t, env.jsonParse t = none →
      handleMessage env now st sid (Msg.text t) = .ok ([], st)) ∧
    (∀ t kvs, env.jsonParse t = some (JVal.jobj kvs) →
      jobjGet "command" kvs = some (JVal.jstr "ping") →
      handleMessage env now st sid (Msg.text t) =
        .ok ([Reply.json (JVal.jobj [("type", JVal.jstr "pong")])], st)) ∧
    (∀ t kvs c, env.jsonParse t = some (JVal.jobj kvs) →
      jobjGet "command" kvs = some (JVal.jstr c) → c ≠ "stats" → c ≠ "ping" →
      handleMessage env now st sid (Msg.text t) = .ok ([], st)) ∧
    (∀ t kvs, env.jsonParse t = some (JVal.jobj kvs) →
      jobjGet "command" kvs = none →
      handleMessage env now st sid (Msg.text t) = .ok ([], st)) ∧
    (∀ t kvs, env.jsonParse t = some (JVal.jobj kvs) →
      (∀ c, jobjGet "command" kvs ≠ some (JVal.jstr c)) →
      (jobjGet "command" kvs).isSome →
      handleMessage env now st sid (Msg.text t) = .ok ([], st)) ∧
    (∀ t v, env.jsonParse t = some v → (∀ kvs, v ≠ JVal.jobj kvs) →
      handleMessage env now st sid (Msg.text t) = .error ()) := by
  refine ⟨?_, ?_, ?_, ?_, ?_, ?_⟩
  · intro t hp
    simp [handleMessage, hp]
  · intro t kvs hp hc
    simp [handleMessage, hp, hc]
  · intro t kvs c hp hc h1 h2
    simp [handleMessage, hp, hc, h1, h2]
  · intro t kvs hp hc
    simp [handleMessage, hp, hc]
  · intro t kvs hp hns hs
    rw [handleMessage, hp]
    cases hc : jobjGet "command" kvs with
    | none => simp [hc] at hs
    | some v =>
      cases v with
      | jstr c => exact absurd hc (hns c)
      | jnull => simp [hc]
      | jbool x => simp [hc]
      | jnum x => simp [hc]
      | jarr x => simp [hc]
      | jobj x => simp [hc]
  · intro t v hp hno
    rw [handleMessage, hp]
    cases v with
    | jobj kvs => exact absurd rfl (hno kvs)
    | jnull => rfl
    | jbool x => rfl
    | jnum x => rfl
    | jstr x => rfl
    | jarr x => rfl

/-- Witness for C5 as amended: unparsable text `"nope"`, then `"ping"`,
then an object with an unrecognized command, an object with no command, and
a non-object payload, all under `env0`. -/
theorem C5_text_protocol_witness :
    handleMessage env0 0 st1 "s" (Msg.text "nope") = .ok ([], st1) ∧
    handleMessage env0 0 st1 "s" (Msg.text "ping") =
      .ok ([Reply.json (JVal.jobj [("type", JVal.jstr "pong")])], st1) ∧
    handleMessage env0 0 st1 "s" (Msg.text "other") = .ok ([], st1) ∧
    handleMessage env0 0 st1 "s" (Msg.text "empty") = .ok ([], st1) ∧
    handleMessage env0 0 st1 "s" (Msg.text "arr") = .error () := by
  obtain ⟨h1, h2, h3, h4, _, h6⟩ := C5_text_protocol env0 0 st1 "s"
  refine ⟨h1 "nope" rfl, h2 "ping" [("command", JVal.jstr "ping")] rfl rfl,
    h3 "other" [("command", JVal.jstr "zzz")] "zzz" rfl rfl (by decide) (by decide),
    h4 "empty" [] rfl rfl, h6 "arr" (JVal.jarr []) rfl ?_⟩
  intro kvs hx
  cases hx

/-- The registry after one frame `[5]` has been processed on the fresh
session `"s"` at time 1, so the stored `last_frame_time` is 1. -/
def stProc1 : StreamManager := (StreamManager.process_frame env0 1 st1 "s" [5]).2

/-- Counterexample to claim C7: a frame arriving at the same timestamp as
the previous one hits the `ZeroDivisionError` in
`1.0 / (now - session.last_frame_time)`, which is evaluated after
`session.frames_processed += 1`, so `process_frame` returns `None` yet the
counter has incremented from 1 to 2 — a failed invocation that does not
leave `frames_processed` unchanged. -/
theorem C7_postincrement_exception_cex :
    (dictGet "s" stProc1.sessions).map StreamSession.frames_processed = some 1 ∧
    (dictGet "s" stProc1.sessions).map StreamSession.last_frame_time = some 1 ∧
    (StreamManager.process_frame env0 1 stProc1 "s" [5]).1 = none ∧
    (dictGet "s" (StreamManager.process_frame env0 1 stProc1 "s" [5]).2.sessions).map
      StreamSession.frames_processed = some 2 :=
  ⟨rfl, rfl, rfl, rfl⟩

/-- Claim C7 as amended: for an existing session, `frames_processed` is
monotonic under `process_frame` (never reset or decremented, and it grows
by at most one per call); it increments by exactly one exactly when the
input frame decodes on a non-busy session — in particular whenever the
call returns a result, but also on the post-increment exception paths
(fps `ZeroDivisionError` when the frame shares its timestamp with the
previous one, `buffer.tobytes()` on a failed encode), which return `None`
with the counter already incremented; invocations that fail before the
counter update (unknown session, busy, decode failure) return `None` and
leave `frames_processed`, `last_frame_time` and `fps` all unchanged. -/
theorem C7_frames_counter_amended (env : Env) (now : ℚ) (st : StreamManager)
    (sid : String) (b : Bytes) (s : StreamSession)
    (h : dictGet sid st.sessions = some s) :
    ∃ s', dictGet sid (StreamManager.process_frame env now st sid b).2.sessions = some s' ∧
      (s'.frames_processed = s.frames_processed ∨
        s'.frames_processed = s.frames_processed + 1) ∧
      ((StreamManager.process_frame env now st sid b).1.isSome →
        s'.frames_processed = s.frames_processed + 1) ∧
      (s.is_processing = false → (env.imdecode b).isSome →
        s'.frames_processed = s.frames_processed + 1) ∧
      ((s.is_processing = true ∨ env.imdecode b = none) →
        (StreamManager.process_frame env now st sid b).1 = none ∧
        s'.frames_processed = s.frames_processed ∧
        s'.last_frame_time = s.last_frame_time ∧ s'.fps = s.fps) := by
  by_cases hb : s.is_processing
  · rw [process_frame_busy env now st sid b s h hb]
    refine ⟨s, h, Or.inl rfl, ?_, ?_, fun _ => ⟨rfl, rfl, rfl, rfl⟩⟩
    · intro hcon
      simp at hcon
    · intro hcon _
      simp [hb] at hcon
  · rw [Bool.not_eq_true] at hb
    obtain ⟨hnone, hsome⟩ := process_frame_cases env now st sid b s h hb
    cases hdec : env.imdecode b with
    | none =>
      obtain ⟨l, he, hget⟩ := hnone hdec
      rw [he]
      refine ⟨s, hget, Or.inl rfl, ?_, ?_, fun _ => ⟨rfl, rfl, rfl, rfl⟩⟩
      · intro hcon
        simp at hcon
      · intro _ hcon
        simp at hcon
    | some frame =>
      obtain ⟨l, he2, hres, hget2, _⟩ := hsome frame hdec
      rw [he2]
      have fp1 : (successSession env now s frame).frames_processed =
          s.frames_processed + 1 := by
        simp [successSession, (processFrameInternal_fields env s frame).1]
      have fp2 : (countedSession env s frame).frames_processed =
          s.frames_processed + 1 := by
        simp [countedSession, (processFrameInternal_fields env s frame).1]
      have hbad : ¬ (s.is_processing = true ∨ (some frame : Option Image) = none) := by
        rintro (hc | hc)
        · rw [hb] at hc
          cases hc
        · cases hc
      rcases hget2 with hg | hg
      · exact ⟨_, hg, Or.inr fp1, fun _ => fp1, fun _ _ => fp1,
          fun hc => absurd hc hbad⟩
      · exact ⟨_, hg, Or.inr fp2, fun _ => fp2, fun _ _ => fp2,
          fun hc => absurd hc hbad⟩

/-- Witness for C7 as amended: frame `[5]` on the fresh session `"s"`. -/
theorem C7_frames_counter_amended_witness :
    ∃ s', dictGet "s" (StreamManager.process_frame env0 0 st1 "s" [5]).2.sessions = some s' ∧
      (s'.frames_processed = StreamSession.fresh.frames_processed ∨
        s'.frames_processed = StreamSession.fresh.frames_processed + 1) ∧
      ((StreamManager.process_frame env0 0 st1 "s" [5]).1.isSome →
        s'.frames_processed = StreamSession.fresh.frames_processed + 1) ∧
      (StreamSession.fresh.is_processing = false → (env0.imdecode [5]).isSome →
        s'.frames_processed = StreamSession.fresh.frames_processed + 1) ∧
      ((StreamSession.fresh.is_processing = true ∨ env0.imdecode [5] = none) →
        (StreamManager.process_frame env0 0 st1 "s" [5]).1 = none ∧
        s'.frames_processed = StreamSession.fresh.frames_processed ∧
        s'.last_frame_time = StreamSession.fresh.last_frame_time ∧
        s'.fps = StreamSession.fresh.fps) :=
  C7_frames_counter_amended env0 0 st1 "s" [5] StreamSession.fresh rfl

/-- Claim C4 (confirmed): the busy flag is set before work starts; a second
`process_frame` arriving while the first is in flight (between
`process_frame_begin` and `process_frame_finish`) returns `None` with no
output and no state change, so the pair yields at most one output and
`frames_processed` increments by exactly one — the increment also happens
exactly once on the post-increment exception paths (the fps
`ZeroDivisionError` and the `buffer.tobytes()` failure), which merely make
the first call return `None`; and the flag is cleared unconditionally by
the `finally`, on every exit path of the body including decode failure and
those exceptions. -/
theorem C4_busy_flag (env : Env) (now now' : ℚ) (st : StreamManager) (sid : String)
    (b1 b2 : Bytes) (s : StreamSession)
    (h : dictGet sid st.sessions = some s) (hb : s.is_processing = false)
    (hdec : (env.imdecode b1).isSome) :
    (process_frame_begin st sid).1 = true ∧
    (dictGet sid (process_frame_begin st sid).2.sessions).map StreamSession.is_processing =
      some true ∧
    StreamManager.process_frame env now' (process_frame_begin st sid).2 sid b2 =
      (none, (process_frame_begin st sid).2) ∧
    (dictGet sid
        (process_frame_finish env now (process_frame_begin st sid).2 sid b1).2.sessions).map
      StreamSession.frames_processed = some (s.frames_processed + 1) ∧
    ∀ b : Bytes,
      (dictGet sid
          (process_frame_finish env now (process_frame_begin st sid).2 sid b).2.sessions).map
        StreamSession.is_processing = some false := by
  have hbeg : process_frame_begin st sid =
      (true, ⟨updateSession sid (fun t => { t with is_processing := true }) st.sessions⟩) := by
    simp [process_frame_begin, h, hb]
  have hget : dictGet sid
      (updateSession sid (fun t => { t with is_processing := true }) st.sessions) =
      some { s with is_processing := true } := by
    rw [dictGet_updateSession, h, Option.map_some']
  obtain ⟨frame, hframe⟩ := Option.isSome_iff_exists.mp hdec
  obtain ⟨hfn, hfs⟩ := process_frame_finish_cases env now
    ⟨updateSession sid (fun t => { t with is_processing := true }) st.sessions⟩ sid b1
    { s with is_processing := true } hget
  rw [hbeg]
  refine ⟨rfl, ?_, ?_, ?_, ?_⟩
  · simp [hget]
  · exact process_frame_busy env now' _ sid b2 _ hget rfl
  · obtain ⟨hzro, hnz⟩ := hfs frame hframe
    by_cases hz : 0 < (processFrameInternal env { s with is_processing := true } frame).2.last_frame_time ∧
        now = (processFrameInternal env { s with is_processing := true } frame).2.last_frame_time
    · rw [hzro hz]
      simp [dictGet_updateSession, hget, countedSession, processFrameInternal_busy,
        (processFrameInternal_fields env s frame).1]
    · rw [hnz hz]
      simp [dictGet_updateSession, hget, successSession, processFrameInternal_busy,
        (processFrameInternal_fields env s frame).1]
  · intro b
    obtain ⟨hfn', hfs'⟩ := process_frame_finish_cases env now
      ⟨updateSession sid (fun t => { t with is_processing := true }) st.sessions⟩ sid b
      { s with is_processing := true } hget
    cases hd : env.imdecode b with
    | none =>
      rw [hfn' hd]
      simp [dictGet_updateSession, hget]
    | some fr =>
      obtain ⟨hzro', hnz'⟩ := hfs' fr hd
      by_cases hz : 0 < (processFrameInternal env { s with is_processing := true } fr).2.last_frame_time ∧
          now = (processFrameInternal env { s with is_processing := true } fr).2.last_frame_time
      · rw [hzro' hz]
        simp [dictGet_updateSession, hget, countedSession]
      · rw [hnz' hz]
        simp [dictGet_updateSession, hget, successSession]

/-- Witness for C4: frames `[5]` then `[7]` on the fresh session `"s"`. -/
theorem C4_busy_flag_witness :
    (process_frame_begin st1 "s").1 = true ∧
    (dictGet "s" (process_frame_begin st1 "s").2.sessions).map StreamSession.is_processing =
      some true ∧
    StreamManager.process_frame env0 2 (process_frame_begin st1 "s").2 "s" [7] =
      (none, (process_frame_begin st1 "s").2) ∧
    (dictGet "s"
        (process_frame_finish env0 1 (process_frame_begin st1 "s").2 "s" [5]).2.sessions).map
      StreamSession.frames_processed = some (StreamSession.fresh.frames_processed + 1) ∧
    ∀ b : Bytes,
      (dictGet "s"
          (process_frame_finish env0 1 (process_frame_begin st1 "s").2 "s" b).2.sessions).map
        StreamSession.is_processing = some false :=
  C4_busy_flag env0 1 2 st1 "s" [5] [7] StreamSession.fresh rfl rfl rfl

/-- Counterexample to claim C8: with an encoder producing empty bytes, the
no-marker branch drops the reply although `process_frame` produced a result
(`if result:` is Python truthiness, false for `b""`), so "a binary reply is
sent if and only if process_frame produced a result" fails. -/
theorem C8_empty_result_cex :
    (StreamManager.process_frame envEmpty 0 st1 "s" [5]).1 = some [] ∧
    handleMessage envEmpty 0 st1 "s" (Msg.binary [5]) =
      .ok ([], (StreamManager.process_frame envEmpty 0 st1 "s" [5]).2) :=
  ⟨rfl, rfl⟩

/-- Claim C8 as amended: a binary message starting with the `FACE` marker
invokes `set_target_face` on the remaining bytes and sends exactly one JSON
`face_set` reply carrying its result; any other binary message is passed
whole to `process_frame`, and a single binary reply with the re-encoded
frame is sent if and only if `process_frame` produced a non-empty result
(nothing is written when it was dropped, decoding failed, or the result is
the empty byte string). -/
theorem C8_binary_dispatch (env : Env) (now : ℚ) (st : StreamManager)
    (sid : String) (b : Bytes) :
    (b.take 4 = faceMarker →
      handleMessage env now st sid (Msg.binary b) =
        .ok ([Reply.json (JVal.jobj [("type", JVal.jstr "face_set"),
            ("success", JVal.jbool (StreamManager.set_target_face env st sid (b.drop 4)).1)])],
          (StreamManager.set_target_face env st sid (b.drop 4)).2)) ∧
    (¬ b.take 4 = faceMarker →
      ∃ replies, handleMessage env now st sid (Msg.binary b) =
          .ok (replies, (StreamManager.process_frame env now st sid b).2) ∧
        (((StreamManager.process_frame env now st sid b).1 = none ∨
          (StreamManager.process_frame env now st sid b).1 = some []) → replies = []) ∧
        (∀ out, (StreamManager.process_frame env now st sid b).1 = some out → ¬ out = [] →
          replies = [Reply.bytes out])) := by
  constructor
  · intro hm
    simp [handleMessage, hm]
  · intro hm
    cases hr : (StreamManager.process_frame env now st sid b).1 with
    | none =>
      refine ⟨[], ?_, fun _ => rfl, ?_⟩
      · simp [handleMessage, hm, hr]
      · intro out hout
        cases hout
    | some out =>
      by_cases ho : out = []
      · subst ho
        refine ⟨[], ?_, fun _ => rfl, ?_⟩
        · simp [handleMessage, hm, hr]
        · intro out' hout' hne
          cases hout'
          exact absurd rfl hne
      · refine ⟨[Reply.bytes out], ?_, ?_, ?_⟩
        · simp [handleMessage, hm, hr, ho]
        · rintro (hcon | hcon)
          · cases hcon
          · cases hcon
            exact absurd rfl ho
        · intro out' hout' _
          cases hout'
          rfl

/-- Witness for C8 as amended: a `FACE`-prefixed message and a plain frame
on the fresh session `"s"`. -/
theorem C8_binary_dispatch_witness :
    handleMessage env0 0 st1 "s" (Msg.binary (faceMarker ++ [2])) =
      .ok ([Reply.json (JVal.jobj [("type", JVal.jstr "face_set"),
          ("success", JVal.jbool
            (StreamManager.set_target_face env0 st1 "s" ((faceMarker ++ [2]).drop 4)).1)])],
        (StreamManager.set_target_face env0 st1 "s" ((faceMarker ++ [2]).drop 4)).2) ∧
    ∃ replies, handleMessage env0 0 st1 "s" (Msg.binary [5]) =
        .ok (replies, (StreamManager.process_frame env0 0 st1 "s" [5]).2) ∧
      (((StreamManager.process_frame env0 0 st1 "s" [5]).1 = none ∨
        (StreamManager.process_frame env0 0 st1 "s" [5]).1 = some []) → replies = []) ∧
      (∀ out, (StreamManager.process_frame env0 0 st1 "s" [5]).1 = some out → ¬ out = [] →
        replies = [Reply.bytes out]) :=
  ⟨(C8_binary_dispatch env0 0 st1 "s" (faceMarker ++ [2])).1 rfl,
   (C8_binary_dispatch env0 0 st1 "s" [5]).2 (by decide)⟩

/-- The registry after the reference face `[2]` is set on session `"s"`. -/
def stFaceA : StreamManager := (StreamManager.set_target_face env0 st1 "s" [2]).2

/-- The registry after one frame `[6]` has been processed with face `[2]`
set (the descriptor of image `2` is now cached). -/
def stSwapped : StreamManager := (StreamManager.process_frame env0 1 stFaceA "s" [6]).2

/-- The result of then supplying the new reference face `[4]`. -/
def rFaceB : Bool × StreamManager := StreamManager.set_target_face env0 stSwapped "s" [4]

/-- The result of processing frame `[6]` again after the new reference face
was set. -/
def rAfterB : Option Bytes × StreamManager := StreamManager.process_frame env0 2 rFaceB.2 "s" [6]

/-- Claim C1 states the intended behavior, but the code has a bug:
`set_target_face` replaces `target_face` without invalidating the cached
`_target_embedding`, and `_process_frame_internal` only computes the
embedding when the attribute is absent. In the trace below the second
reference face `[4]` (image `4`, descriptor `104`) is set successfully, yet
the following `process_frame` still swaps with the descriptor `102` derived
from the first reference image `2`, not with `104` derived from the new
one. -/
theorem C1_stale_descriptor_code_bug :
    (StreamManager.set_target_face env0 st1 "s" [2]).1 = true ∧
    rFaceB.1 = true ∧
    (dictGet "s" rFaceB.2.sessions).map StreamSession.target_face = some (some 4) ∧
    (dictGet "s" rFaceB.2.sessions).map StreamSession.target_embedding = some (some 102) ∧
    env0.detect 2 = [102] ∧ env0.detect 4 = [104] ∧
    rAfterB.1 = some [env0.swap 6 106 102 + 1] ∧
    rAfterB.1 ≠ some [env0.swap 6 106 104 + 1] :=
  ⟨rfl, rfl, rfl, rfl, rfl, rfl, rfl, by decide⟩

end FaceForge
